import Mathlib

/-!
Shallow embedding of the bacalhau Docker shard executor
(`pkg/executor/docker/executor.go`) and of the requester submit-request
verification (`pkg/requester/publicapi/utils.go`).

External effects (storage preparation, the Docker daemon, the filesystem,
configuration lookups) are modelled as oracles carried in an environment
record; each oracle field holds the outcome the external system returns for
the single call the code under study makes during one invocation.
Go `float64` values are modelled as exact rationals; Go machine integers as
`Nat`/`Int` with explicit wrapping where a Go conversion can wrap.
-/

namespace Bacalhau

/-- Go error values as produced by this code base: a leaf message
(`errors.New` / `fmt.Errorf`), a wrapped error (`errors.Wrap(err, msg)`,
message rendered as `msg ++ ": " ++ cause`), or the combination of two
non-nil errors by `multierr.Combine`. -/
inductive GoErr where
  | base (msg : String)
  | wrap (msg : String) (cause : GoErr)
  | multi (fst snd : GoErr)
deriving DecidableEq

/-- Rendering of a Go error value by its `Error()` method. -/
def GoErr.message : GoErr → String
  | .base s => s
  | .wrap m c => m ++ ": " ++ c.message
  | .multi a b => a.message ++ "; " ++ b.message

/-- Go `strings.Contains s sub`: `sub` occurs as a contiguous substring of `s`. -/
def stringContains (s sub : String) : Prop := sub.data <:+: s.data

instance (s sub : String) : Decidable (stringContains s sub) :=
  inferInstanceAs (Decidable (sub.data <:+: s.data))

/-- Semantics of `multierr.Combine` applied to the two possibly-nil errors of the
wait step: nil operands are dropped; two non-nil errors are combined into one
multi-error carrying both. -/
def multierrCombine : Option GoErr → Option GoErr → Option GoErr
  | none, none => none
  | some a, none => some a
  | none, some b => some b
  | some a, some b => some (.multi a b)

/-- Fields of `model.StorageSpec` that this code reads. Output specs declare a
`name` and an in-sandbox `path`. -/
structure StorageSpec where
  storageSource : String
  name : String
  path : String
deriving DecidableEq

/-- Rendering of a `StorageSpec` by Go's `%+v` verb, used in the validation
error messages (further fields of the Go struct are elided; the claims only
need the message to be the descriptive validation error for that output). -/
def StorageSpec.goFormat (o : StorageSpec) : String :=
  "\x7bStorageSource:" ++ o.storageSource ++ " Name:" ++ o.name ++ " Path:" ++ o.path ++ "\x7d"

/-- A resolved input volume (`storage.StorageVolume`): an access kind
(connector type), a host source path and an in-sandbox target path. -/
structure StorageVolume where
  type : String
  source : String
  target : String
deriving DecidableEq

/-- Modelled from the spec: the constant `storage.StorageVolumeConnectorBind`
(the `pkg/storage` types are not among the sources under study); the spec calls
the only supported access kind "bind". -/
def StorageVolumeConnectorBind : String := "bind"

/-- Docker mount type; only `mount.TypeBind` is ever constructed by this code. -/
inductive MountType where
  | bind
deriving DecidableEq

/-- A `mount.Mount` entry as built by `RunShard`. -/
structure Mount where
  type : MountType
  readOnly : Bool
  source : String
  target : String
deriving DecidableEq

/-- A `container.DeviceRequest`. -/
structure DeviceRequest where
  deviceIDs : List String
  capabilities : List (List String)
deriving DecidableEq

/-- The `container.Resources` runtime limits: `int64` memory and nano-CPU
quota plus device requests. -/
structure ContainerResources where
  memory : Int
  nanoCPUs : Int
  deviceRequests : List DeviceRequest
deriving DecidableEq

/-- The `container.Config` built for the sandbox. -/
structure ContainerConfig where
  image : String
  tty : Bool
  env : List String
  entrypoint : List String
  labels : List (String × String)
  workingDir : String
deriving DecidableEq

/-- The `container.HostConfig` built for the sandbox. -/
structure HostConfig where
  mounts : List Mount
  resources : ContainerResources
deriving DecidableEq

/-- The `model.Spec.Docker` block. -/
structure JobSpecDocker where
  image : String
  entrypoint : List String
  environmentVariables : List String
  workingDirectory : String
deriving DecidableEq

/-- The raw `model.ResourceUsageConfig` strings; parsed externally by
`capacity.ParseResourceUsageConfig`. -/
structure ResourceUsageConfig where
  cpu : String
  memory : String
  disk : String
  gpu : String
deriving DecidableEq

/-- The parts of `model.Spec` that `RunShard` reads. -/
structure JobSpec where
  docker : JobSpecDocker
  resources : ResourceUsageConfig
  contexts : List StorageSpec
  outputs : List StorageSpec
deriving DecidableEq

/-- The `model.Metadata` block (only the job identifier is read). -/
structure JobMetadata where
  id : String
deriving DecidableEq

/-- A `model.Job`. -/
structure Job where
  metadata : JobMetadata
  spec : JobSpec
deriving DecidableEq

/-- A `model.JobShard`: a parent job plus a shard index. The Go index is an
`int` that is always non-negative, modelled as `Nat`. -/
structure JobShard where
  job : Job
  index : Nat
deriving DecidableEq

/-- The executor instance (`Executor` struct); only its instance identifier
matters for the embedded behaviour — the storage provider and the Docker
client are modelled as oracles. -/
structure Executor where
  ID : String
deriving DecidableEq

/-- The parsed `model.ResourceUsageData` produced by
`capacity.ParseResourceUsageConfig`: CPU is a Go `float64`, modelled as an
exact rational; Memory, Disk and GPU are `uint64`, modelled as naturals. -/
structure ResourceUsageData where
  cpu : ℚ
  memory : ℕ
  disk : ℕ
  gpu : ℕ
deriving DecidableEq

/-- The constant `NanoCPUCoefficient = 1000000000` (executor.go line 31). -/
def NanoCPUCoefficient : ℕ := 1000000000

/-- The constant `labelExecutorName = "bacalhau-executor"`. -/
def labelExecutorName : String := "bacalhau-executor"

/-- The constant `labelJobName = "bacalhau-jobID"`. -/
def labelJobName : String := "bacalhau-jobID"

/-- Go's `int64(x)` conversion of a `uint64` value: two's-complement
reinterpretation, which wraps to a negative value for `x ≥ 2^63`. -/
def int64OfUInt64 (n : ℕ) : ℤ := ((n : ℤ) + 2 ^ 63) % 2 ^ 64 - 2 ^ 63

/-- Go's `int64(f)` conversion of an in-range `float64`: truncation toward
zero. (The conversion is implementation-defined for out-of-range values; the
claims only exercise it where the value is in range and the preceding float
arithmetic is exact, so the rational model agrees with the code.) -/
def int64OfFloat (q : ℚ) : ℤ := if 0 ≤ q then ⌊q⌋ else -⌊-q⌋

/-- Lines 222–231: a single GPU device request (hard-coded device "0" with
capability "gpu") is appended only when the job requests at least one GPU. -/
def jobDeviceRequests (r : ResourceUsageData) : List DeviceRequest :=
  if r.gpu > 0 then [{ deviceIDs := ["0"], capabilities := [["gpu"]] }] else []

/-- Rounding of a rational to the nearest integer with ties to even, the
rounding mode IEEE 754 prescribes for binary64 arithmetic. -/
def rndNearestEven (x : ℚ) : ℤ :=
  if x - ⌊x⌋ < 1 / 2 then ⌊x⌋
  else if 1 / 2 < x - ⌊x⌋ then ⌊x⌋ + 1
  else if ⌊x⌋ % 2 = 0 then ⌊x⌋ else ⌊x⌋ + 1

/-- Rounding of a positive rational to the nearest binary64 value: the
significand is rounded to 53 bits at the value's binade (ties to even). The
exponent is unbounded — no overflow, infinity or subnormal handling — which
agrees with binary64 on the whole range this code exercises. -/
def roundPos (q : ℚ) : ℚ :=
  (rndNearestEven (q / 2 ^ (Int.log 2 q - 52)) : ℚ) * 2 ^ (Int.log 2 q - 52)

/-- Rounding of an exact rational to the nearest binary64 value (round to
nearest, ties to even; unbounded exponent). This models the one rounding a Go
`float64` multiplication performs on the exact product of its operands. -/
def roundF64 (q : ℚ) : ℚ :=
  if q = 0 then 0 else if 0 < q then roundPos q else -roundPos (-q)

/-- Lines 233–240: the `container.Resources` limits built from the parsed
resource requirements — memory passed through `int64(...)`, and the CPU
quota computed as Go computes `int64(CPU * NanoCPUCoefficient)`: the exact
product of the two `float64` operands (`NanoCPUCoefficient` = 10^9 is exactly
representable) is rounded once by the `float64` multiplication and the result
converted to `int64` by truncation toward zero. -/
def hostResources (r : ResourceUsageData) : ContainerResources :=
  { memory := int64OfUInt64 r.memory
    nanoCPUs := int64OfFloat (roundF64 (r.cpu * (NanoCPUCoefficient : ℚ)))
    deviceRequests := jobDeviceRequests r }

/-- Go `filepath.Join dir name` for the non-empty relative `name` used here
(path cleaning is immaterial to the claims: only which per-output subdirectory
is named matters). -/
def filepathJoin (dir name : String) : String := dir ++ "/" ++ name

/-- Modelled from the spec: the permission constant `util.OS_ALL_R`
(`pkg/storage/util` is not among the sources under study) — read permission
for owner, group and world. -/
def OS_ALL_R : ℕ := 0o444

/-- Modelled from the spec: the permission constant `util.OS_ALL_X` — execute
permission for owner, group and world. -/
def OS_ALL_X : ℕ := 0o111

/-- Modelled from the spec: the permission constant `util.OS_USER_W` — write
permission for the owner. -/
def OS_USER_W : ℕ := 0o200

/-- Lines 132–146: the input-volume loop. Each resolved volume of the bind
connector kind becomes a read-only bind mount with host source and sandbox
target copied verbatim; any other kind aborts the whole build with the
"unknown storage volume type" error and no mount list is returned. -/
def buildInputMounts : List (StorageSpec × StorageVolume) → Except GoErr (List Mount)
  | [] => .ok []
  | (_, volumeMount) :: rest =>
    if volumeMount.type = StorageVolumeConnectorBind then
      match buildInputMounts rest with
      | .error e => .error e
      | .ok ms =>
        .ok ({ type := .bind, readOnly := true
               source := volumeMount.source, target := volumeMount.target } :: ms)
    else
      .error (.base ("unknown storage volume type: " ++ volumeMount.type))

/-- Lines 152–184: the output loop. Each output must have a non-empty name and
a non-empty path; a fresh host directory `jobResultsDir/name` is created with
mode `OS_ALL_R|OS_ALL_X|OS_USER_W` and a read-write bind mount onto the
output's sandbox path is appended. The first component of the result records
the host directories actually created (in order), also on the abort paths; the
second is the built mount list or the aborting error. -/
def buildOutputMounts (mkdir : String → ℕ → Option GoErr) (jobResultsDir : String) :
    List StorageSpec → List String × Except GoErr (List Mount)
  | [] => ([], .ok [])
  | output :: rest =>
    if output.name = "" then
      ([], .error (.base ("output volume has no name: " ++ output.goFormat)))
    else if output.path = "" then
      ([], .error (.base ("output volume has no path: " ++ output.goFormat)))
    else
      let srcd := filepathJoin jobResultsDir output.name
      match mkdir srcd (OS_ALL_R ||| OS_ALL_X ||| OS_USER_W) with
      | some e => ([], .error e)
      | none =>
        match buildOutputMounts mkdir jobResultsDir rest with
        | (created, .error e) => (srcd :: created, .error e)
        | (created, .ok ms) =>
          (srcd :: created,
           .ok ({ type := .bind, readOnly := false, source := srcd, target := output.path } :: ms))

/-- Lines 339–343: `dockerObjectName` — the dash-join of the system prefix,
the executor instance identifier, the job identifier, the shard index and the
role parts. -/
def dockerObjectName (e : Executor) (shard : JobShard) (parts : List String) : String :=
  String.intercalate "-" (["bacalhau", e.ID, shard.job.metadata.id, toString shard.index] ++ parts)

/-- Lines 345–347: the container name for a shard, role "executor". -/
def jobContainerName (e : Executor) (shard : JobShard) : String :=
  dockerObjectName e shard ["executor"]

/-- Modelled from the spec: `model.JobShard.ID()` (`pkg/model` is not among
the sources under study) — the shard's stable identity string, incorporating
the parent job identifier and the shard index. -/
def JobShard.shardIdentity (shard : JobShard) : String :=
  shard.job.metadata.id ++ ":" ++ toString shard.index

/-- Lines 356–358: the job-label value — the executor instance identifier
concatenated with the shard's identity string. -/
def labelJobValue (e : Executor) (shard : JobShard) : String :=
  e.ID ++ shard.shardIdentity

/-- Lines 349–354: the label set attached to the shard's container. -/
def jobContainerLabels (e : Executor) (shard : JobShard) : List (String × String) :=
  [(labelExecutorName, e.ID), (labelJobName, labelJobValue e shard)]

/-- The two ways the `select` over `ContainerWait`'s channels can resolve
(lines 289–297): an error delivered on the wait channel, or a terminal exit
status with an optional embedded runtime error message. -/
inductive WaitOutcome where
  | errCh (e : GoErr)
  | statusCh (statusCode : Int) (errMessage : Option String)
deriving DecidableEq

/-- Lines 282–297: the container error determined by the select — the
wait-channel error if the wait errored, otherwise the error message embedded
in the exit status, if any. -/
def waitContainerError : WaitOutcome → Option GoErr
  | .errCh e => some e
  | .statusCh _ none => none
  | .statusCh _ (some m) => some (.base m)

/-- Lines 283–297: the exit status code; it keeps its zero value when the
wait channel errors. -/
def waitExitCode : WaitOutcome → Int
  | .errCh _ => 0
  | .statusCh code _ => code

/-- Modelled from the spec: the structured shard result produced by
`executor.WriteJobResults` (`pkg/executor`'s helpers are not among the sources
under study) — an exit code plus the combined error. -/
structure RunResult where
  exitCode : Int
  combinedError : Option GoErr
deriving DecidableEq

/-- The outcome of one `RunShard` invocation: an early failure result
(`executor.FailResult`) or the structured results of a shard that reached the
wait step (`executor.WriteJobResults`). -/
inductive ShardOutcome where
  | failResult (e : GoErr)
  | results (r : RunResult)
deriving DecidableEq

/-- Modelled from the spec: `executor.WriteJobResults` persists the captured
streams and produces the shard result carrying the exit code and the combined
error. -/
def writeJobResults (exitCode : Int) (combinedError : Option GoErr) : ShardOutcome :=
  .results { exitCode := exitCode, combinedError := combinedError }

/-- The `errors.Wrapf` message for a failed image pull (lines 188–189). -/
def pullFailureMsg (image : String) : String :=
  "Could not pull image \"" ++ image ++
    "\" - could be due to repo/image not existing,\n or registry needing authorization"

/-- Outcomes of the external calls one `RunShard` invocation makes, plus the
externally parsed resource requirements and configuration toggles. -/
structure RunEnv where
  /-- outcome of `jobutils.GetShardStorageSpec` -/
  shardStorageSpec : Except GoErr (List StorageSpec)
  /-- outcome of `storage.ParallelPrepareStorage` over contexts and shard
  inputs, as the sequence of (spec, resolved volume) pairs the input loop
  iterates over -/
  prepareStorage : Except GoErr (List (StorageSpec × StorageVolume))
  /-- outcome of `os.Mkdir path perm`, per path -/
  mkdir : String → ℕ → Option GoErr
  /-- value of `os.Getenv "SKIP_IMAGE_PULL"` -/
  getenvSkipImagePull : String
  /-- outcome of `docker.PullImage` -/
  pullImage : Option GoErr
  /-- result of `capacity.ParseResourceUsageConfig(shard.Job.Spec.Resources)` -/
  resources : ResourceUsageData
  /-- outcome of `model.JSONMarshalWithMax(shard.Job.Spec)` -/
  jsonJobSpec : Except GoErr String
  /-- outcome of `e.setupNetworkForJob` -/
  setupNetwork : Option GoErr
  /-- outcome of `e.Client.ContainerCreate` (the created container identifier) -/
  containerCreate : Except GoErr String
  /-- outcome of `e.Client.ContainerStart` -/
  containerStart : Option GoErr
  /-- log-follow error from `docker.FollowLogs` -/
  followLogsErr : Option GoErr
  /-- resolution of the select over `ContainerWait`'s channels -/
  waitOutcome : WaitOutcome
  /-- value of `config.ShouldKeepStack()` -/
  shouldKeepStack : Bool
  /-- outcome of `docker.RemoveObjectsWithLabel` during cleanup -/
  removeObjects : Option GoErr

/-- Observable side effects of one `RunShard` invocation: the host directories
created for outputs, and the create request sent to the daemon (`none` when
the invocation aborted before `ContainerCreate`). -/
structure RunTrace where
  createdDirs : List String
  createRequest : Option (ContainerConfig × HostConfig × String)
deriving DecidableEq

/-- The kind of context a cleanup sweep runs against. -/
inductive CleanupCtx where
  | callerCtx
  | backgroundWithTimeout (minutes : ℕ)
deriving DecidableEq

/-- What `cleanupJob` (lines 312–323) did: whether removal was attempted, the
label scope it swept, the context it ran against, and the removal error it
logged (never returned). -/
structure CleanupRecord where
  attemptedRemoval : Bool
  scope : Option (String × String)
  ctx : Option CleanupCtx
  loggedErr : Option GoErr
deriving DecidableEq

/-- Lines 312–323: `cleanupJob` — a no-op when the keep-stack debugging toggle
is active; otherwise it removes every object carrying this shard's job label,
against a fresh background context with a one-minute timeout, and only logs
the removal error. -/
def cleanupJob (e : Executor) (env : RunEnv) (shard : JobShard) : CleanupRecord :=
  if env.shouldKeepStack then
    { attemptedRemoval := false, scope := none, ctx := none, loggedErr := none }
  else
    { attemptedRemoval := true
      scope := some (labelJobName, labelJobValue e shard)
      ctx := some (.backgroundWithTimeout 1)
      loggedErr := env.removeObjects }

/-- Lines 116–306: the body of `RunShard` — storage resolution, mount
building, optional image pull, job-spec serialization, container and host
configuration, network setup, create, start, log follow, wait, and result
writing — with every `return executor.FailResult(err)` path made explicit. -/
def runShardBody (e : Executor) (env : RunEnv) (shard : JobShard) (jobResultsDir : String) :
    ShardOutcome × RunTrace :=
  match env.shardStorageSpec with
  | .error err => (.failResult err, ⟨[], none⟩)
  | .ok _shardStorageSpec =>
  match env.prepareStorage with
  | .error err => (.failResult err, ⟨[], none⟩)
  | .ok inputVolumes =>
  match buildInputMounts inputVolumes with
  | .error err => (.failResult err, ⟨[], none⟩)
  | .ok inputMounts =>
  match buildOutputMounts env.mkdir jobResultsDir shard.job.spec.outputs with
  | (createdDirs, .error err) => (.failResult err, ⟨createdDirs, none⟩)
  | (createdDirs, .ok outputMounts) =>
  let mounts := inputMounts ++ outputMounts
  match if env.getenvSkipImagePull = "" then env.pullImage else none with
  | some err =>
    (.failResult (.wrap (pullFailureMsg shard.job.spec.docker.image) err), ⟨createdDirs, none⟩)
  | none =>
  match env.jsonJobSpec with
  | .error err => (.failResult err, ⟨createdDirs, none⟩)
  | .ok jsonJobSpec =>
  let useEnv := shard.job.spec.docker.environmentVariables ++ ["BACALHAU_JOB_SPEC=" ++ jsonJobSpec]
  let containerConfig : ContainerConfig :=
    { image := shard.job.spec.docker.image
      tty := false
      env := useEnv
      entrypoint := shard.job.spec.docker.entrypoint
      labels := jobContainerLabels e shard
      workingDir := shard.job.spec.docker.workingDirectory }
  let hostConfig : HostConfig :=
    { mounts := mounts, resources := hostResources env.resources }
  match env.setupNetwork with
  | some err => (.failResult err, ⟨createdDirs, none⟩)
  | none =>
  let createReq := some (containerConfig, hostConfig, jobContainerName e shard)
  match env.containerCreate with
  | .error err => (.failResult (.wrap "failed to create container" err), ⟨createdDirs, createReq⟩)
  | .ok _containerID =>
  match env.containerStart with
  | some containerStartError =>
    let internalContainerStartErrorMsg :=
      if stringContains containerStartError.message "executable file not found" then
        "Executable file not found"
      else
        "failed to start container"
    (.failResult (.wrap internalContainerStartErrorMsg containerStartError),
     ⟨createdDirs, createReq⟩)
  | none =>
  (writeJobResults (waitExitCode env.waitOutcome)
     (multierrCombine (waitContainerError env.waitOutcome) env.followLogsErr),
   ⟨createdDirs, createReq⟩)

/-- Lines 104–306 with the `defer e.cleanupJob(ctx, shard)` of line 114: the
body runs first and the shard-scoped cleanup runs afterwards on every path,
its record returned alongside the body's outcome and trace. -/
def runShard (e : Executor) (env : RunEnv) (shard : JobShard) (jobResultsDir : String) :
    ShardOutcome × RunTrace × CleanupRecord :=
  let body := runShardBody e env shard jobResultsDir
  (body.1, body.2, cleanupJob e env shard)

/-- The `model.JobCreatePayload` fields this code reads. -/
structure JobCreatePayload where
  clientID : String
  job : Job
deriving DecidableEq

/-- A `submitRequest`: the payload plus the client's signature and public key. -/
structure SubmitRequest where
  jobCreatePayload : JobCreatePayload
  clientSignature : String
  clientPublicKey : String
deriving DecidableEq

/-- External verification oracles consumed by `verifySubmitRequest`. -/
structure VerifyEnv where
  /-- `system.PublicKeyMatchesID publicKey clientID` — a match verdict or an error -/
  publicKeyMatchesID : String → String → Except GoErr Bool
  /-- `model.JSONMarshalWithMax` on the payload -/
  jsonMarshal : JobCreatePayload → Except GoErr String
  /-- `system.Verify jsonData signature publicKey` — the verification error, if any -/
  verify : String → String → String → Option GoErr

/-- Lines 11–43 of `pkg/requester/publicapi/utils.go`: `verifySubmitRequest`
checks, in order, that the payload's client ID, the client signature and the
client public key are non-empty, that the public key matches the client ID,
and that the signature verifies against the JSON-marshaled payload; the first
violated condition produces its own error and `none` means accepted. -/
def verifySubmitRequest (env : VerifyEnv) (req : SubmitRequest) : Option GoErr :=
  if req.jobCreatePayload.clientID = "" then
    some (.base "job create payload must contain a client ID")
  else if req.clientSignature = "" then
    some (.base "client\x27s signature is required")
  else if req.clientPublicKey = "" then
    some (.base "client\x27s public key is required")
  else
    match env.publicKeyMatchesID req.clientPublicKey req.jobCreatePayload.clientID with
    | .error err => some (.wrap "error verifying client ID" err)
    | .ok false => some (.base "client\x27s public key does not match client ID")
    | .ok true =>
      match env.jsonMarshal req.jobCreatePayload with
      | .error err => some (.wrap "error marshaling job data" err)
      | .ok jsonData =>
        match env.verify jsonData req.clientSignature req.clientPublicKey with
        | some err => some (.wrap "client\x27s signature is invalid" err)
        | none => none

/-- Decimal digit list of a natural number, structurally recursive: the list
that `Nat.toDigitsCore` produces once its fuel suffices. Used to reason about
`Nat.repr`, which renders the shard index inside names and labels. -/
def decRepr (n : ℕ) : List Char :=
  if h : n / 10 = 0 then [Nat.digitChar (n % 10)]
  else decRepr (n / 10) ++ [Nat.digitChar (n % 10)]
termination_by n
decreasing_by
  exact Nat.div_lt_self (Nat.pos_of_ne_zero fun hn => h (by simp [hn])) (by norm_num)

/-- Concrete fixture: a minimal Docker block. -/
def sampleDocker : JobSpecDocker :=
  { image := "ubuntu", entrypoint := ["sh"], environmentVariables := [], workingDirectory := "" }

/-- Concrete fixture: empty raw resource strings. -/
def sampleResourceConfig : ResourceUsageConfig :=
  { cpu := "", memory := "", disk := "", gpu := "" }

/-- Concrete fixture: a job spec with the given outputs. -/
def sampleSpec (outputs : List StorageSpec) : JobSpec :=
  { docker := sampleDocker, resources := sampleResourceConfig, contexts := [], outputs := outputs }

/-- Concrete fixture: a shard of a job with the given identifier, index and outputs. -/
def sampleShard (id : String) (idx : ℕ) (outputs : List StorageSpec) : JobShard :=
  { job := { metadata := { id := id }, spec := sampleSpec outputs }, index := idx }

/-- Concrete fixture: an environment in which every external call succeeds,
image pulling is suppressed, the sandbox exits cleanly and cleanup is active. -/
def sampleEnv : RunEnv :=
  { shardStorageSpec := .ok []
    prepareStorage := .ok []
    mkdir := fun _ _ => none
    getenvSkipImagePull := "1"
    pullImage := none
    resources := { cpu := ((1 : ℕ) : ℚ), memory := 64, disk := 0, gpu := 0 }
    jsonJobSpec := .ok "null"
    setupNetwork := none
    containerCreate := .ok "cid-1"
    containerStart := none
    followLogsErr := none
    waitOutcome := .statusCh 0 none
    shouldKeepStack := false
    removeObjects := none }

/-! Helper lemmas about decimal rendering of the shard index and about
splitting strings at a separator character, used for the name/label claims. -/

theorem decRepr_eq_small {n : ℕ} (h : n / 10 = 0) :
    decRepr n = [Nat.digitChar (n % 10)] := by
  rw [decRepr, dif_pos h]

theorem decRepr_eq_big {n : ℕ} (h : n / 10 ≠ 0) :
    decRepr n = decRepr (n / 10) ++ [Nat.digitChar (n % 10)] := by
  rw [decRepr, dif_neg h]

theorem digitChar_ne_dash : ∀ m < 10, Nat.digitChar m ≠ '-' := by decide

theorem digitChar_ne_colon : ∀ m < 10, Nat.digitChar m ≠ ':' := by decide

theorem digitChar_injOn : ∀ m₁ < 10, ∀ m₂ < 10,
    Nat.digitChar m₁ = Nat.digitChar m₂ → m₁ = m₂ := by decide

theorem decRepr_digit (n : ℕ) : ∀ c ∈ decRepr n, ∃ m, m < 10 ∧ c = Nat.digitChar m := by
  induction n using Nat.strong_induction_on with
  | _ n ih =>
    by_cases h : n / 10 = 0
    · rw [decRepr_eq_small h]
      intro c hc
      simp only [List.mem_singleton] at hc
      exact ⟨n % 10, Nat.mod_lt _ (by norm_num), hc⟩
    · rw [decRepr_eq_big h]
      intro c hc
      rcases List.mem_append.mp hc with h1 | h2
      · exact ih (n / 10)
          (Nat.div_lt_self (Nat.pos_of_ne_zero fun hn => h (by simp [hn])) (by norm_num)) c h1
      · simp only [List.mem_singleton] at h2
        exact ⟨n % 10, Nat.mod_lt _ (by norm_num), h2⟩

theorem decRepr_ne_nil (n : ℕ) : decRepr n ≠ [] := by
  by_cases h : n / 10 = 0
  · rw [decRepr_eq_small h]; simp
  · rw [decRepr_eq_big h]; simp

theorem decRepr_not_dash (n : ℕ) : '-' ∉ decRepr n := fun hc => by
  obtain ⟨m, hm, he⟩ := decRepr_digit n '-' hc
  exact digitChar_ne_dash m hm he.symm

theorem decRepr_not_colon (n : ℕ) : ':' ∉ decRepr n := fun hc => by
  obtain ⟨m, hm, he⟩ := decRepr_digit n ':' hc
  exact digitChar_ne_colon m hm he.symm

theorem decRepr_injective : ∀ m n : ℕ, decRepr m = decRepr n → m = n := by
  intro m
  induction m using Nat.strong_induction_on with
  | _ m ih =>
    intro n h
    by_cases hm : m / 10 = 0 <;> by_cases hn : n / 10 = 0
    · rw [decRepr_eq_small hm, decRepr_eq_small hn] at h
      simp only [List.cons.injEq] at h
      have := digitChar_injOn (m % 10) (Nat.mod_lt _ (by norm_num))
        (n % 10) (Nat.mod_lt _ (by norm_num)) h.1
      omega
    · rw [decRepr_eq_small hm, decRepr_eq_big hn] at h
      have hlen := congrArg List.length h
      simp only [List.length_singleton, List.length_append] at hlen
      have h0 : (decRepr (n / 10)).length = 0 := by omega
      exact absurd (List.length_eq_zero.mp h0) (decRepr_ne_nil (n / 10))
    · rw [decRepr_eq_big hm, decRepr_eq_small hn] at h
      have hlen := congrArg List.length h
      simp only [List.length_singleton, List.length_append] at hlen
      have h0 : (decRepr (m / 10)).length = 0 := by omega
      exact absurd (List.length_eq_zero.mp h0) (decRepr_ne_nil (m / 10))
    · rw [decRepr_eq_big hm, decRepr_eq_big hn] at h
      obtain ⟨h1, h2⟩ := List.append_inj' h (by simp)
      simp only [List.cons.injEq] at h2
      have hd := digitChar_injOn (m % 10) (Nat.mod_lt _ (by norm_num))
        (n % 10) (Nat.mod_lt _ (by norm_num)) h2.1
      have hq := ih (m / 10)
        (Nat.div_lt_self (Nat.pos_of_ne_zero fun hz => hm (by simp [hz])) (by norm_num))
        (n / 10) h1
      omega

theorem toDigitsCore_eq_decRepr :
    ∀ (f n : ℕ) (acc : List Char), 0 < f → n < 10 ^ f →
      Nat.toDigitsCore 10 f n acc = decRepr n ++ acc := by
  intro f
  induction f with
  | zero => intro n acc h; exact absurd h (lt_irrefl 0)
  | succ f ihf =>
    intro n acc _ hlt
    by_cases h : n / 10 = 0
    · simp only [Nat.toDigitsCore]
      rw [if_pos h, decRepr_eq_small h]
      simp
    · simp only [Nat.toDigitsCore]
      rw [if_neg h]
      have hf : 0 < f := by
        rcases Nat.eq_zero_or_pos f with hf0 | hf0
        · subst hf0
          rw [pow_one] at hlt
          omega
        · exact hf0
      have hdiv : n / 10 < 10 ^ f := by
        rw [Nat.div_lt_iff_lt_mul (by norm_num : 0 < 10)]
        calc n < 10 ^ (f + 1) := hlt
          _ = 10 ^ f * 10 := by ring
      rw [ihf (n / 10) _ hf hdiv, decRepr_eq_big h]
      simp

theorem natRepr_data (n : ℕ) : (Nat.repr n).data = decRepr n := by
  have h1 : n < 10 ^ (n + 1) :=
    lt_of_lt_of_le (Nat.lt_pow_self (by norm_num) n)
      (Nat.pow_le_pow_right (by norm_num) (Nat.le_succ n))
  have h2 := toDigitsCore_eq_decRepr (n + 1) n [] (Nat.succ_pos n) h1
  show Nat.toDigitsCore 10 (n + 1) n [] = decRepr n
  rw [h2]; simp

theorem natRepr_injective {m n : ℕ} (h : (Nat.repr m).data = (Nat.repr n).data) : m = n :=
  decRepr_injective m n (by rwa [natRepr_data, natRepr_data] at h)

theorem natRepr_not_dash (n : ℕ) : '-' ∉ (Nat.repr n).data := by
  rw [natRepr_data]; exact decRepr_not_dash n

theorem natRepr_not_colon (n : ℕ) : ':' ∉ (Nat.repr n).data := by
  rw [natRepr_data]; exact decRepr_not_colon n

theorem natToString_eq_repr (n : ℕ) : toString n = Nat.repr n := rfl

theorem append_sep_inj {c : Char} :
    ∀ {l₁ l₂ r₁ r₂ : List Char}, l₁ ++ c :: r₁ = l₂ ++ c :: r₂ → c ∉ l₁ → c ∉ l₂ →
      l₁ = l₂ ∧ r₁ = r₂ := by
  intro l₁
  induction l₁ with
  | nil =>
    intro l₂ r₁ r₂ h _ h₂
    cases l₂ with
    | nil => exact ⟨rfl, by simpa using h⟩
    | cons y u =>
      simp only [List.nil_append, List.cons_append, List.cons.injEq] at h
      exact absurd (h.1 ▸ List.mem_cons_self y u) h₂
  | cons x t ih =>
    intro l₂ r₁ r₂ h h₁ h₂
    cases l₂ with
    | nil =>
      simp only [List.nil_append, List.cons_append, List.cons.injEq] at h
      exact absurd (h.1.symm ▸ List.mem_cons_self x t) h₁
    | cons y u =>
      simp only [List.cons_append, List.cons.injEq] at h
      obtain ⟨hxy, hrest⟩ := h
      have hr := ih hrest (fun hm => h₁ (List.mem_cons_of_mem x hm))
        (fun hm => h₂ (List.mem_cons_of_mem y hm))
      exact ⟨by rw [hxy, hr.1], hr.2⟩

theorem dash_data : "-".data = ['-'] := rfl

theorem colon_data : ":".data = [':'] := rfl

theorem string_mk_inj {a b : String} (h : a.data = b.data) : a = b :=
  congrArg String.mk h

theorem jobContainerName_formula (e : Executor) (shard : JobShard) :
    jobContainerName e shard =
      "bacalhau" ++ "-" ++ e.ID ++ "-" ++ shard.job.metadata.id ++ "-" ++
        toString shard.index ++ "-" ++ "executor" := rfl

theorem jobContainerName_data (e : Executor) (shard : JobShard) :
    (jobContainerName e shard).data =
      "bacalhau".data ++ '-' :: (e.ID.data ++ '-' :: (shard.job.metadata.id.data ++
        '-' :: ((Nat.repr shard.index).data ++ '-' :: "executor".data))) := by
  rw [jobContainerName_formula, natToString_eq_repr]
  simp [String.data_append, dash_data]

theorem labelJobValue_data (e : Executor) (shard : JobShard) :
    (labelJobValue e shard).data =
      e.ID.data ++ (shard.job.metadata.id.data ++ ':' :: (Nat.repr shard.index).data) := by
  rw [labelJobValue, JobShard.shardIdentity, natToString_eq_repr]
  simp [String.data_append, colon_data]

/-- C6 counterexample: the claim that any two distinct (executor instance,
shard) pairs get distinct container names and distinct job-label values is
false — a dash inside the executor ID makes two distinct pairs share the
container name, and plain concatenation makes two distinct pairs share the
job-label value. -/
theorem dockerNamesUnique_counterexample :
    jobContainerName ⟨"a-b"⟩ (sampleShard "c" 0 []) =
      jobContainerName ⟨"a"⟩ (sampleShard "b-c" 0 [])
    ∧ (Executor.mk "a-b", sampleShard "c" 0 []) ≠ (Executor.mk "a", sampleShard "b-c" 0 [])
    ∧ labelJobValue ⟨"ab"⟩ (sampleShard "c" 0 []) =
      labelJobValue ⟨"a"⟩ (sampleShard "bc" 0 [])
    ∧ (Executor.mk "ab", sampleShard "c" 0 []) ≠ (Executor.mk "a", sampleShard "bc" 0 []) := by
  exact ⟨by decide, by decide, by decide, by decide⟩

/-- C6 (amended): the derivations are deterministic — the container name is
exactly the dash-joined string `bacalhau-{executorID}-{jobID}-{shardIndex}-executor`
and the job-label value is the executor ID concatenated with the shard's
identity string — and uniqueness holds under separator assumptions: two pairs
whose executor IDs and job IDs contain no dash have equal container names only
if they agree on executor ID, job ID and shard index; and under one executor
instance ID, two shards whose job IDs contain no colon have equal job-label
values only if they agree on job ID and shard index. -/
theorem dockerNamesUnique (e₁ e₂ : Executor) (s₁ s₂ : JobShard)
    (he₁ : '-' ∉ e₁.ID.data) (he₂ : '-' ∉ e₂.ID.data)
    (hj₁ : '-' ∉ s₁.job.metadata.id.data) (hj₂ : '-' ∉ s₂.job.metadata.id.data)
    (hc₁ : ':' ∉ s₁.job.metadata.id.data) (hc₂ : ':' ∉ s₂.job.metadata.id.data) :
    (jobContainerName e₁ s₁ = jobContainerName e₂ s₂ →
      e₁.ID = e₂.ID ∧ s₁.job.metadata.id = s₂.job.metadata.id ∧ s₁.index = s₂.index)
    ∧ (e₁.ID = e₂.ID → labelJobValue e₁ s₁ = labelJobValue e₂ s₂ →
      s₁.job.metadata.id = s₂.job.metadata.id ∧ s₁.index = s₂.index)
    ∧ jobContainerName e₁ s₁ =
        "bacalhau" ++ "-" ++ e₁.ID ++ "-" ++ s₁.job.metadata.id ++ "-" ++
          toString s₁.index ++ "-" ++ "executor"
    ∧ labelJobValue e₁ s₁ = e₁.ID ++ s₁.shardIdentity := by
  refine ⟨?_, ?_, rfl, rfl⟩
  · intro h
    have hd := congrArg String.data h
    rw [jobContainerName_data, jobContainerName_data] at hd
    have h1 := List.append_cancel_left hd
    simp only [List.cons.injEq, true_and] at h1
    obtain ⟨hid, hB⟩ := append_sep_inj h1 he₁ he₂
    obtain ⟨hjid, hC⟩ := append_sep_inj hB hj₁ hj₂
    obtain ⟨hidx, -⟩ := append_sep_inj hC (natRepr_not_dash _) (natRepr_not_dash _)
    exact ⟨string_mk_inj hid, string_mk_inj hjid, natRepr_injective hidx⟩
  · intro he h
    have hd := congrArg String.data h
    rw [labelJobValue_data, labelJobValue_data, he] at hd
    have h1 := List.append_cancel_left hd
    obtain ⟨hjid, hidx⟩ := append_sep_inj h1 hc₁ hc₂
    exact ⟨string_mk_inj hjid, natRepr_injective hidx⟩

/-- C6 witness: the amended uniqueness theorem applied at a concrete
dash-free, colon-free pair. -/
theorem dockerNamesUnique_witness :
    ("ex" : String) = "ex" ∧ ("job1" : String) = "job1" ∧ (3 : ℕ) = 3 :=
  (dockerNamesUnique ⟨"ex"⟩ ⟨"ex"⟩ (sampleShard "job1" 3 []) (sampleShard "job1" 3 [])
    (by decide) (by decide) (by decide) (by decide) (by decide) (by decide)).1 rfl

/-! Helper lemmas characterizing the two mount-building loops. -/

theorem buildInputMounts_ok (vols : List (StorageSpec × StorageVolume))
    (h : ∀ p ∈ vols, p.2.type = StorageVolumeConnectorBind) :
    buildInputMounts vols = .ok (vols.map fun p =>
      { type := MountType.bind, readOnly := true,
        source := p.2.source, target := p.2.target }) := by
  induction vols with
  | nil => rfl
  | cons p rest ih =>
    obtain ⟨s, v⟩ := p
    have hv : v.type = StorageVolumeConnectorBind := h (s, v) (List.mem_cons_self _ _)
    rw [buildInputMounts, if_pos hv, ih fun q hq => h q (List.mem_cons_of_mem _ hq)]
    rfl

theorem buildInputMounts_bad (pre : List (StorageSpec × StorageVolume)) (s : StorageSpec)
    (v : StorageVolume) (post : List (StorageSpec × StorageVolume))
    (hpre : ∀ p ∈ pre, p.2.type = StorageVolumeConnectorBind)
    (hv : v.type ≠ StorageVolumeConnectorBind) :
    buildInputMounts (pre ++ (s, v) :: post) =
      .error (.base ("unknown storage volume type: " ++ v.type)) := by
  induction pre with
  | nil =>
    rw [List.nil_append, buildInputMounts, if_neg hv]
  | cons p rest ih =>
    obtain ⟨s', v'⟩ := p
    have hv' : v'.type = StorageVolumeConnectorBind := hpre (s', v') (List.mem_cons_self _ _)
    rw [List.cons_append, buildInputMounts, if_pos hv',
      ih fun q hq => hpre q (List.mem_cons_of_mem _ hq)]

theorem buildOutputMounts_ok (mkdir : String → ℕ → Option GoErr) (dir : String)
    (outputs : List StorageSpec)
    (hval : ∀ o ∈ outputs, o.name ≠ "" ∧ o.path ≠ "")
    (hmk : ∀ o ∈ outputs,
      mkdir (filepathJoin dir o.name) (OS_ALL_R ||| OS_ALL_X ||| OS_USER_W) = none) :
    buildOutputMounts mkdir dir outputs =
      (outputs.map fun o => filepathJoin dir o.name,
       .ok (outputs.map fun o =>
         { type := MountType.bind, readOnly := false,
           source := filepathJoin dir o.name, target := o.path })) := by
  induction outputs with
  | nil => rfl
  | cons o rest ih =>
    have h1 := hval o (List.mem_cons_self _ _)
    have h2 := hmk o (List.mem_cons_self _ _)
    rw [buildOutputMounts, if_neg h1.1, if_neg h1.2]
    simp only [h2, ih (fun q hq => hval q (List.mem_cons_of_mem _ hq))
      (fun q hq => hmk q (List.mem_cons_of_mem _ hq)), List.map_cons]

theorem buildOutputMounts_invalid (mkdir : String → ℕ → Option GoErr) (dir : String)
    (pre : List StorageSpec) (o : StorageSpec) (post : List StorageSpec)
    (hpre : ∀ p ∈ pre, p.name ≠ "" ∧ p.path ≠ "")
    (hmk : ∀ p ∈ pre, mkdir (filepathJoin dir p.name) (OS_ALL_R ||| OS_ALL_X ||| OS_USER_W) = none)
    (hbad : o.name = "" ∨ o.path = "") :
    buildOutputMounts mkdir dir (pre ++ o :: post) =
      (pre.map fun p => filepathJoin dir p.name,
       .error (.base (if o.name = "" then "output volume has no name: " ++ o.goFormat
         else "output volume has no path: " ++ o.goFormat))) := by
  induction pre with
  | nil =>
    rw [List.nil_append]
    by_cases hn : o.name = ""
    · rw [buildOutputMounts, if_pos hn]
      simp [hn]
    · have hp : o.path = "" := hbad.resolve_left hn
      rw [buildOutputMounts, if_neg hn, if_pos hp]
      simp [hn]
  | cons p rest ih =>
    have h1 := hpre p (List.mem_cons_self _ _)
    have h2 := hmk p (List.mem_cons_self _ _)
    rw [List.cons_append, buildOutputMounts, if_neg h1.1, if_neg h1.2]
    simp only [h2, ih (fun q hq => hpre q (List.mem_cons_of_mem _ hq))
      (fun q hq => hmk q (List.mem_cons_of_mem _ hq)), List.map_cons]

theorem buildOutputMounts_mkdirFail (mkdir : String → ℕ → Option GoErr) (dir : String)
    (pre : List StorageSpec) (o : StorageSpec) (post : List StorageSpec) (er : GoErr)
    (hpre : ∀ p ∈ pre, p.name ≠ "" ∧ p.path ≠ "")
    (hmk : ∀ p ∈ pre, mkdir (filepathJoin dir p.name) (OS_ALL_R ||| OS_ALL_X ||| OS_USER_W) = none)
    (ho : o.name ≠ "" ∧ o.path ≠ "")
    (hfail : mkdir (filepathJoin dir o.name) (OS_ALL_R ||| OS_ALL_X ||| OS_USER_W) = some er) :
    buildOutputMounts mkdir dir (pre ++ o :: post) =
      (pre.map fun p => filepathJoin dir p.name, .error er) := by
  induction pre with
  | nil =>
    rw [List.nil_append, buildOutputMounts, if_neg ho.1, if_neg ho.2]
    simp only [hfail, List.map_nil]
  | cons p rest ih =>
    have h1 := hpre p (List.mem_cons_self _ _)
    have h2 := hmk p (List.mem_cons_self _ _)
    rw [List.cons_append, buildOutputMounts, if_neg h1.1, if_neg h1.2]
    simp only [h2, ih (fun q hq => hpre q (List.mem_cons_of_mem _ hq))
      (fun q hq => hmk q (List.mem_cons_of_mem _ hq)), List.map_cons]

/-- C3: an output spec with an empty name or an empty path aborts mount
building with the descriptive validation error; no mount list is produced (so
neither that output nor any output after it gets a mount entry), and the host
directories created are exactly those of the valid outputs before it — none
for the invalid output or anything after it. -/
theorem outputValidation_aborts (mkdir : String → ℕ → Option GoErr) (dir : String)
    (pre : List StorageSpec) (o : StorageSpec) (post : List StorageSpec)
    (hpre : ∀ p ∈ pre, p.name ≠ "" ∧ p.path ≠ "")
    (hmk : ∀ p ∈ pre, mkdir (filepathJoin dir p.name) (OS_ALL_R ||| OS_ALL_X ||| OS_USER_W) = none)
    (hbad : o.name = "" ∨ o.path = "") :
    (buildOutputMounts mkdir dir (pre ++ o :: post)).2 =
      .error (.base (if o.name = "" then "output volume has no name: " ++ o.goFormat
        else "output volume has no path: " ++ o.goFormat))
    ∧ (buildOutputMounts mkdir dir (pre ++ o :: post)).1 =
      pre.map fun p => filepathJoin dir p.name := by
  rw [buildOutputMounts_invalid mkdir dir pre o post hpre hmk hbad]
  exact ⟨rfl, rfl⟩

/-- C3 witness: a shard whose only output has an empty path — the build fails
with the path-validation error and no directories are created. -/
theorem outputValidation_aborts_witness :
    (buildOutputMounts (fun _ _ => none) "/results"
        [{ storageSource := "ipfs", name := "out", path := "" }]).2 =
      .error (.base ("output volume has no path: " ++
        StorageSpec.goFormat { storageSource := "ipfs", name := "out", path := "" }))
    ∧ (buildOutputMounts (fun _ _ => none) "/results"
        [{ storageSource := "ipfs", name := "out", path := "" }]).1 = [] := by
  have h := outputValidation_aborts (fun _ _ => none) "/results" []
    { storageSource := "ipfs", name := "out", path := "" } [] (by decide) (by decide)
    (by decide)
  rw [List.nil_append] at h
  exact ⟨by rw [h.1]; rfl, h.2⟩

/-- C4: every output spec with non-empty name and non-empty path yields
exactly one read-write bind mount whose host source is the freshly created
subdirectory `resultsDir/name` and whose target is the declared output path;
the creation mode is owner read/write/execute plus group and world
read/execute (0o755); and a directory-creation failure aborts the whole
build. -/
theorem outputMounts_valid (mkdir : String → ℕ → Option GoErr) (dir : String)
    (outputs : List StorageSpec)
    (hval : ∀ o ∈ outputs, o.name ≠ "" ∧ o.path ≠ "")
    (hmk : ∀ o ∈ outputs,
      mkdir (filepathJoin dir o.name) (OS_ALL_R ||| OS_ALL_X ||| OS_USER_W) = none) :
    buildOutputMounts mkdir dir outputs =
      (outputs.map fun o => filepathJoin dir o.name,
       .ok (outputs.map fun o =>
         { type := MountType.bind, readOnly := false,
           source := filepathJoin dir o.name, target := o.path }))
    ∧ OS_ALL_R ||| OS_ALL_X ||| OS_USER_W = 0o755
    ∧ (∀ (pre : List StorageSpec) (o : StorageSpec) (post : List StorageSpec) (er : GoErr),
        (∀ p ∈ pre, p.name ≠ "" ∧ p.path ≠ "") →
        (∀ p ∈ pre, mkdir (filepathJoin dir p.name) (OS_ALL_R ||| OS_ALL_X ||| OS_USER_W) = none) →
        o.name ≠ "" ∧ o.path ≠ "" →
        mkdir (filepathJoin dir o.name) (OS_ALL_R ||| OS_ALL_X ||| OS_USER_W) = some er →
        (buildOutputMounts mkdir dir (pre ++ o :: post)).2 = .error er) := by
  refine ⟨buildOutputMounts_ok mkdir dir outputs hval hmk, by decide, ?_⟩
  intro pre o post er hpre hmkpre ho hfail
  rw [buildOutputMounts_mkdirFail mkdir dir pre o post er hpre hmkpre ho hfail]

/-- C4 witness: one valid output named "out" targeting "/data/out" — exactly
one read-write mount backed by the fresh subdirectory "/results/out". -/
theorem outputMounts_valid_witness :
    buildOutputMounts (fun _ _ => none) "/results"
        [{ storageSource := "ipfs", name := "out", path := "/data/out" }] =
      (["/results/out"],
       .ok [{ type := MountType.bind, readOnly := false,
              source := "/results/out", target := "/data/out" }]) := by
  have h := (outputMounts_valid (fun _ _ => none) "/results"
    [{ storageSource := "ipfs", name := "out", path := "/data/out" }]
    (by decide) (by decide)).1
  rw [h]; rfl

/-- C5: every resolved input volume of the bind kind yields a read-only bind
mount with source and target copied verbatim; a resolved volume of any other
kind aborts the whole invocation with the "unknown storage volume type" error
before any directory is created or any create request reaches the daemon, and
no partial mount list is used. -/
theorem unknownVolumeType_aborts (e : Executor) (env : RunEnv) (shard : JobShard) (dir : String)
    (specs : List StorageSpec) (pre : List (StorageSpec × StorageVolume)) (s : StorageSpec)
    (v : StorageVolume) (post : List (StorageSpec × StorageVolume))
    (h₁ : env.shardStorageSpec = .ok specs)
    (h₂ : env.prepareStorage = .ok (pre ++ (s, v) :: post))
    (hpre : ∀ p ∈ pre, p.2.type = StorageVolumeConnectorBind)
    (hv : v.type ≠ StorageVolumeConnectorBind) :
    (runShard e env shard dir).1 = .failResult (.base ("unknown storage volume type: " ++ v.type))
    ∧ (runShard e env shard dir).2.1.createRequest = none
    ∧ (runShard e env shard dir).2.1.createdDirs = []
    ∧ ∀ vols, (∀ p ∈ vols, p.2.type = StorageVolumeConnectorBind) →
        buildInputMounts vols = .ok (vols.map fun p =>
          { type := MountType.bind, readOnly := true,
            source := p.2.source, target := p.2.target }) := by
  have hb := buildInputMounts_bad pre s v post hpre hv
  refine ⟨?_, ?_, ?_, fun vols hvols => buildInputMounts_ok vols hvols⟩ <;>
    simp [runShard, runShardBody, h₁, h₂, hb]

/-- C5 witness: a single resolved volume of kind "ipfs" — the shard fails
with the unknown-volume-type error and no create request is issued. -/
theorem unknownVolumeType_aborts_witness :
    (runShard ⟨"ex"⟩
        { sampleEnv with
            prepareStorage := .ok [({ storageSource := "ipfs", name := "in", path := "/data/in" },
              { type := "ipfs", source := "/host/in", target := "/data/in" })] }
        (sampleShard "j" 0 []) "/results").1 =
      .failResult (.base "unknown storage volume type: ipfs")
    ∧ (runShard ⟨"ex"⟩
        { sampleEnv with
            prepareStorage := .ok [({ storageSource := "ipfs", name := "in", path := "/data/in" },
              { type := "ipfs", source := "/host/in", target := "/data/in" })] }
        (sampleShard "j" 0 []) "/results").2.1.createRequest = none := by
  have h := unknownVolumeType_aborts ⟨"ex"⟩
    { sampleEnv with
        prepareStorage := .ok [({ storageSource := "ipfs", name := "in", path := "/data/in" },
          { type := "ipfs", source := "/host/in", target := "/data/in" })] }
    (sampleShard "j" 0 []) "/results" [] []
    { storageSource := "ipfs", name := "in", path := "/data/in" }
    { type := "ipfs", source := "/host/in", target := "/data/in" } []
    rfl rfl (by decide) (by decide)
  exact ⟨h.1, h.2.1⟩

/-- C9: the mount list handed to the daemon in the create request is exactly
the input mounts, in resolved-volume order, followed by the output mounts, in
declared order; nothing is deduplicated, so duplicate sandbox targets pass
through unvalidated. -/
theorem mountOrder_inputs_before_outputs (e : Executor) (env : RunEnv) (shard : JobShard)
    (dir : String) (specs : List StorageSpec) (vols : List (StorageSpec × StorageVolume))
    (js : String)
    (h₁ : env.shardStorageSpec = .ok specs)
    (h₂ : env.prepareStorage = .ok vols)
    (hbind : ∀ p ∈ vols, p.2.type = StorageVolumeConnectorBind)
    (hval : ∀ o ∈ shard.job.spec.outputs, o.name ≠ "" ∧ o.path ≠ "")
    (hmk : ∀ o ∈ shard.job.spec.outputs,
      env.mkdir (filepathJoin dir o.name) (OS_ALL_R ||| OS_ALL_X ||| OS_USER_W) = none)
    (hpull : env.getenvSkipImagePull ≠ "" ∨ env.pullImage = none)
    (h₆ : env.jsonJobSpec = .ok js)
    (h₇ : env.setupNetwork = none) :
    ((runShard e env shard dir).2.1.createRequest.map fun t => t.2.1.mounts) =
      some ((vols.map fun p =>
          { type := MountType.bind, readOnly := true,
            source := p.2.source, target := p.2.target }) ++
        (shard.job.spec.outputs.map fun o =>
          { type := MountType.bind, readOnly := false,
            source := filepathJoin dir o.name, target := o.path })) := by
  have hin := buildInputMounts_ok vols hbind
  have hout := buildOutputMounts_ok env.mkdir dir shard.job.spec.outputs hval hmk
  have hpull' : (if env.getenvSkipImagePull = "" then env.pullImage else none) = none := by
    rcases hpull with h | h
    · rw [if_neg h]
    · split <;> simp [h]
  cases hc : env.containerCreate with
  | error er => simp [runShard, runShardBody, h₁, h₂, hin, hout, hpull', h₆, h₇, hc]
  | ok cid =>
    cases hs : env.containerStart <;>
      simp [runShard, runShardBody, h₁, h₂, hin, hout, hpull', h₆, h₇, hc, hs]

/-- C9 witness: an input mount and an output mount with the same sandbox
target both appear, input first, with no deduplication or validation. -/
theorem mountOrder_witness :
    ((runShard ⟨"ex"⟩
        { sampleEnv with
            prepareStorage := .ok [({ storageSource := "bind", name := "in", path := "/data/x" },
              { type := "bind", source := "/host/in", target := "/data/x" })] }
        (sampleShard "j" 0 [{ storageSource := "ipfs", name := "out", path := "/data/x" }])
        "/results").2.1.createRequest.map fun t => t.2.1.mounts) =
      some [{ type := MountType.bind, readOnly := true,
              source := "/host/in", target := "/data/x" },
            { type := MountType.bind, readOnly := false,
              source := "/results/out", target := "/data/x" }] := by
  have h := mountOrder_inputs_before_outputs ⟨"ex"⟩
    { sampleEnv with
        prepareStorage := .ok [({ storageSource := "bind", name := "in", path := "/data/x" },
          { type := "bind", source := "/host/in", target := "/data/x" })] }
    (sampleShard "j" 0 [{ storageSource := "ipfs", name := "out", path := "/data/x" }])
    "/results" [] _ "null" rfl rfl (by decide) (by decide) (by decide)
    (Or.inl (by decide)) rfl rfl
  rw [h]; rfl

/-- C1: once the wait step is reached, the result's combined error is the
container error — the wait-channel error if the wait errored, otherwise the
error message embedded in the exit status, if any — combined with the
log-follow error, which is never dropped; exit status 137 with no runtime
error and successful log-follow yields exit code 137 and a nil combined
error; and a wait-channel error is reported as the cause while the exit code
stays zero. -/
theorem waitStep_combines_errors (e : Executor) (env : RunEnv) (shard : JobShard) (dir : String)
    (specs : List StorageSpec) (vols : List (StorageSpec × StorageVolume))
    (ims oms : List Mount) (created : List String) (js cid : String)
    (h₁ : env.shardStorageSpec = .ok specs)
    (h₂ : env.prepareStorage = .ok vols)
    (h₃ : buildInputMounts vols = .ok ims)
    (h₄ : buildOutputMounts env.mkdir dir shard.job.spec.outputs = (created, .ok oms))
    (hpull : env.getenvSkipImagePull ≠ "" ∨ env.pullImage = none)
    (h₆ : env.jsonJobSpec = .ok js)
    (h₇ : env.setupNetwork = none)
    (h₈ : env.containerCreate = .ok cid)
    (h₉ : env.containerStart = none) :
    (runShard e env shard dir).1 =
      writeJobResults (waitExitCode env.waitOutcome)
        (multierrCombine (waitContainerError env.waitOutcome) env.followLogsErr)
    ∧ (env.waitOutcome = .statusCh 137 none → env.followLogsErr = none →
        (runShard e env shard dir).1 = .results ⟨137, none⟩)
    ∧ (∀ er, env.waitOutcome = .errCh er →
        (runShard e env shard dir).1 =
          .results ⟨0, multierrCombine (some er) env.followLogsErr⟩)
    ∧ (∀ le, env.followLogsErr = some le →
        ∃ c, (runShard e env shard dir).1 =
            .results ⟨waitExitCode env.waitOutcome, some c⟩ ∧
          (c = le ∨ ∃ a, c = .multi a le)) := by
  have hpull' : (if env.getenvSkipImagePull = "" then env.pullImage else none) = none := by
    rcases hpull with h | h
    · rw [if_neg h]
    · split <;> simp [h]
  have hmain : (runShard e env shard dir).1 =
      writeJobResults (waitExitCode env.waitOutcome)
        (multierrCombine (waitContainerError env.waitOutcome) env.followLogsErr) := by
    simp [runShard, runShardBody, h₁, h₂, h₃, h₄, hpull', h₆, h₇, h₈, h₉]
  refine ⟨hmain, ?_, ?_, ?_⟩
  · intro hw hl
    rw [hmain, hw, hl]; rfl
  · intro er hw
    rw [hmain, hw]; rfl
  · intro le hl
    rw [hmain, hl]
    cases hce : waitContainerError env.waitOutcome with
    | none => exact ⟨le, rfl, Or.inl rfl⟩
    | some a => exact ⟨.multi a le, rfl, Or.inr ⟨a, rfl⟩⟩

/-- C1 witness: the sandbox exits with status 137, no runtime error and no
log-follow error — the result is exit code 137 with a nil combined error. -/
theorem waitStep_combines_errors_witness :
    (runShard ⟨"ex"⟩ { sampleEnv with waitOutcome := .statusCh 137 none }
        (sampleShard "j" 0 []) "/results").1 = .results ⟨137, none⟩ :=
  (waitStep_combines_errors ⟨"ex"⟩ { sampleEnv with waitOutcome := .statusCh 137 none }
    (sampleShard "j" 0 []) "/results" [] [] [] [] [] "null" "cid-1"
    rfl rfl rfl rfl (Or.inl (by decide)) rfl rfl rfl rfl).2.1 rfl rfl

/-- C7: a container start failure whose message contains the substring
"executable file not found" is wrapped with the distinguished message
"Executable file not found"; every other start failure is wrapped with the
generic "failed to start container". -/
theorem startFailure_classified (e : Executor) (env : RunEnv) (shard : JobShard) (dir : String)
    (specs : List StorageSpec) (vols : List (StorageSpec × StorageVolume))
    (ims oms : List Mount) (created : List String) (js cid : String) (er : GoErr)
    (h₁ : env.shardStorageSpec = .ok specs)
    (h₂ : env.prepareStorage = .ok vols)
    (h₃ : buildInputMounts vols = .ok ims)
    (h₄ : buildOutputMounts env.mkdir dir shard.job.spec.outputs = (created, .ok oms))
    (hpull : env.getenvSkipImagePull ≠ "" ∨ env.pullImage = none)
    (h₆ : env.jsonJobSpec = .ok js)
    (h₇ : env.setupNetwork = none)
    (h₈ : env.containerCreate = .ok cid)
    (h₉ : env.containerStart = some er) :
    (runShard e env shard dir).1 =
      .failResult (.wrap (if stringContains er.message "executable file not found"
        then "Executable file not found" else "failed to start container") er)
    ∧ (stringContains er.message "executable file not found" →
        (runShard e env shard dir).1 = .failResult (.wrap "Executable file not found" er))
    ∧ (¬ stringContains er.message "executable file not found" →
        (runShard e env shard dir).1 = .failResult (.wrap "failed to start container" er)) := by
  have hpull' : (if env.getenvSkipImagePull = "" then env.pullImage else none) = none := by
    rcases hpull with h | h
    · rw [if_neg h]
    · split <;> simp [h]
  have hmain : (runShard e env shard dir).1 =
      .failResult (.wrap (if stringContains er.message "executable file not found"
        then "Executable file not found" else "failed to start container") er) := by
    simp [runShard, runShardBody, h₁, h₂, h₃, h₄, hpull', h₆, h₇, h₈, h₉]
  refine ⟨hmain, fun hs => by rw [hmain, if_pos hs], fun hs => by rw [hmain, if_neg hs]⟩

/-- C7 witness: a start failure whose message contains "executable file not
found" is reported with the distinguished classification. -/
theorem startFailure_classified_witness :
    (runShard ⟨"ex"⟩
        { sampleEnv with
          containerStart := some (.base "executable file not found in $PATH") }
        (sampleShard "j" 0 []) "/results").1 =
      .failResult (.wrap "Executable file not found"
        (.base "executable file not found in $PATH")) :=
  (startFailure_classified ⟨"ex"⟩
    { sampleEnv with
      containerStart := some (.base "executable file not found in $PATH") }
    (sampleShard "j" 0 []) "/results" [] [] [] [] [] "null" "cid-1"
    (.base "executable file not found in $PATH")
    rfl rfl rfl rfl (Or.inl (by decide)) rfl rfl rfl rfl).2.1 (by decide)

/-- C8: shard-scoped cleanup runs as the final step of every invocation,
whatever the outcome and also on every early-abort path; when the keep-stack
debugging toggle is active it is a no-op; otherwise it sweeps exactly this
shard's job label against a fresh background context with a one-minute
timeout; and the removal outcome is only logged — it never alters the shard's
reported outcome or trace. -/
theorem cleanup_always_runs (e : Executor) (env : RunEnv) (shard : JobShard) (dir : String) :
    (runShard e env shard dir).2.2 = cleanupJob e env shard
    ∧ (env.shouldKeepStack = true →
        (runShard e env shard dir).2.2 =
          { attemptedRemoval := false, scope := none, ctx := none, loggedErr := none })
    ∧ (env.shouldKeepStack = false →
        (runShard e env shard dir).2.2 =
          { attemptedRemoval := true
            scope := some (labelJobName, labelJobValue e shard)
            ctx := some (.backgroundWithTimeout 1)
            loggedErr := env.removeObjects })
    ∧ (∀ x, (runShard e { env with removeObjects := x } shard dir).1 =
        (runShard e env shard dir).1)
    ∧ (∀ x, (runShard e { env with removeObjects := x } shard dir).2.1 =
        (runShard e env shard dir).2.1) := by
  refine ⟨rfl, ?_, ?_, fun x => rfl, fun x => rfl⟩
  · intro h
    show cleanupJob e env shard = _
    rw [cleanupJob, if_pos h]
  · intro h
    show cleanupJob e env shard = _
    rw [cleanupJob, if_neg (by rw [h]; exact Bool.false_ne_true)]

/-- C8 witness: with cleanup active, the record shows a removal attempt scoped
to this shard's label against the background one-minute context. -/
theorem cleanup_always_runs_witness :
    (runShard ⟨"ex"⟩ sampleEnv (sampleShard "j" 0 []) "/results").2.2 =
      { attemptedRemoval := true
        scope := some (labelJobName, labelJobValue ⟨"ex"⟩ (sampleShard "j" 0 []))
        ctx := some (.backgroundWithTimeout 1)
        loggedErr := none } :=
  (cleanup_always_runs ⟨"ex"⟩ sampleEnv (sampleShard "j" 0 []) "/results").2.2.1 rfl

/-! Helper lemmas about the binary64 rounding model. -/

/-- C10: `verifySubmitRequest` accepts (returns nil) iff the client ID, the
signature and the public key are non-empty, the public key matches the client
ID, and the signature verifies against the JSON-marshaled payload; the checks
run in that order and the first violated condition yields its own distinct
descriptive error. -/
theorem verifySubmitRequest_spec (env : VerifyEnv) (req : SubmitRequest) :
    (verifySubmitRequest env req = none ↔
      req.jobCreatePayload.clientID ≠ "" ∧ req.clientSignature ≠ "" ∧
      req.clientPublicKey ≠ "" ∧
      env.publicKeyMatchesID req.clientPublicKey req.jobCreatePayload.clientID = .ok true ∧
      ∃ jsonData, env.jsonMarshal req.jobCreatePayload = .ok jsonData ∧
        env.verify jsonData req.clientSignature req.clientPublicKey = none)
    ∧ (req.jobCreatePayload.clientID = "" →
        verifySubmitRequest env req =
          some (.base "job create payload must contain a client ID"))
    ∧ (req.jobCreatePayload.clientID ≠ "" → req.clientSignature = "" →
        verifySubmitRequest env req = some (.base "client\x27s signature is required"))
    ∧ (req.jobCreatePayload.clientID ≠ "" → req.clientSignature ≠ "" →
        req.clientPublicKey = "" →
        verifySubmitRequest env req = some (.base "client\x27s public key is required"))
    ∧ (req.jobCreatePayload.clientID ≠ "" → req.clientSignature ≠ "" →
        req.clientPublicKey ≠ "" →
        env.publicKeyMatchesID req.clientPublicKey req.jobCreatePayload.clientID = .ok false →
        verifySubmitRequest env req =
          some (.base "client\x27s public key does not match client ID"))
    ∧ (∀ jsonData er,
        req.jobCreatePayload.clientID ≠ "" → req.clientSignature ≠ "" →
        req.clientPublicKey ≠ "" →
        env.publicKeyMatchesID req.clientPublicKey req.jobCreatePayload.clientID = .ok true →
        env.jsonMarshal req.jobCreatePayload = .ok jsonData →
        env.verify jsonData req.clientSignature req.clientPublicKey = some er →
        verifySubmitRequest env req = some (.wrap "client\x27s signature is invalid" er))
    ∧ ([GoErr.base "job create payload must contain a client ID",
        GoErr.base "client\x27s signature is required",
        GoErr.base "client\x27s public key is required",
        GoErr.base "client\x27s public key does not match client ID",
        GoErr.base "client\x27s signature is invalid"].Pairwise (· ≠ ·)) := by
  refine ⟨?_, ?_, ?_, ?_, ?_, ?_, by decide⟩
  · by_cases h1 : req.jobCreatePayload.clientID = ""
    · simp [verifySubmitRequest, h1]
    · by_cases h2 : req.clientSignature = ""
      · simp [verifySubmitRequest, h1, h2]
      · by_cases h3 : req.clientPublicKey = ""
        · simp [verifySubmitRequest, h1, h2, h3]
        · cases h4 : env.publicKeyMatchesID req.clientPublicKey req.jobCreatePayload.clientID with
          | error er => simp [verifySubmitRequest, h1, h2, h3, h4]
          | ok b =>
            cases b with
            | false => simp [verifySubmitRequest, h1, h2, h3, h4]
            | true =>
              cases h5 : env.jsonMarshal req.jobCreatePayload with
              | error er => simp [verifySubmitRequest, h1, h2, h3, h4, h5]
              | ok j =>
                cases h6 : env.verify j req.clientSignature req.clientPublicKey with
                | none => simp [verifySubmitRequest, h1, h2, h3, h4, h5, h6]
                | some er => simp [verifySubmitRequest, h1, h2, h3, h4, h5, h6]
  · intro h1
    simp [verifySubmitRequest, h1]
  · intro h1 h2
    simp [verifySubmitRequest, h1, h2]
  · intro h1 h2 h3
    simp [verifySubmitRequest, h1, h2, h3]
  · intro h1 h2 h3 h4
    simp [verifySubmitRequest, h1, h2, h3, h4]
  · intro jsonData er h1 h2 h3 h4 h5 h6
    simp [verifySubmitRequest, h1, h2, h3, h4, h5, h6]

/-- C10 witness: a fully well-formed request under oracles that match and
verify is accepted. -/
theorem verifySubmitRequest_spec_witness :
    verifySubmitRequest
      { publicKeyMatchesID := fun _ _ => .ok true
        jsonMarshal := fun _ => .ok "data"
        verify := fun _ _ _ => none }
      { jobCreatePayload := { clientID := "c1", job := (sampleShard "j" 0 []).job }
        clientSignature := "sig"
        clientPublicKey := "pk" } = none :=
  (verifySubmitRequest_spec
    { publicKeyMatchesID := fun _ _ => .ok true
      jsonMarshal := fun _ => .ok "data"
      verify := fun _ _ _ => none }
    { jobCreatePayload := { clientID := "c1", job := (sampleShard "j" 0 []).job }
      clientSignature := "sig"
      clientPublicKey := "pk" }).1.mpr
    ⟨by decide, by decide, by decide, rfl, "data", rfl, rfl⟩

end Bacalhau
